import Mathlib

/-!
Verification of the trading decision core (`core/judge.py`, `core/agents.py`,
`core/tier1_math.py`, `core/llm_resilience.py`, `core/account_manager.py`)
against its natural-language specification.

Modelling conventions:
* Python `Decimal` and `float` arithmetic is modelled with exact rationals
  (`ℚ`); every rounding step of the source (`quantize`, `round`, `int`) is
  modelled explicitly.
* Logging calls (`logger.info` / `logger.warning` / ...) are modelled as
  no-ops: they are I/O outside the decision data flow (`judge.py` does not
  even bind a `logger` name; logging is excluded from the behavioural
  contract being checked).
* Calls that can raise are modelled with `Except String` / `Option`; a
  propagated Python exception is an `.error` value.
* External collaborators (chart manager, RAG store, LLM provider, database,
  audit sink) are modelled as inputs in an environment record: the model
  takes their observable outcome (result or raised exception) as data.
-/

/-! ## Generic helpers for Python / decimal semantics -/

/-- Truncation toward zero, as in `Decimal.quantize(Decimal('1'), ROUND_DOWN)`
and Python `int(...)` on a numeric value. -/
def ratTrunc (q : ℚ) : ℤ :=
  if 0 ≤ q then ⌊q⌋ else -⌊-q⌋

/-- Round-half-to-even to an integer, as in Python `round(x)` (on exact
values) and `Decimal` formatting with the default `ROUND_HALF_EVEN`. -/
def roundHalfEven (q : ℚ) : ℤ :=
  let f := ⌊q⌋
  let r := q - (f : ℚ)
  if r < 1/2 then f
  else if 1/2 < r then f + 1
  else if f % 2 = 0 then f else f + 1

/-- Python `round(x, 2)` (half-even at two decimal places). -/
def roundHalfEven2 (q : ℚ) : ℚ :=
  (roundHalfEven (q * 100) : ℚ) / 100

/-- Python `x % step` for a positive `step` (used with positive operands). -/
def pymod (q step : ℚ) : ℚ :=
  q - step * (⌊q / step⌋ : ℚ)

/-- Substring test on character lists. -/
def listContainsSub (pat l : List Char) : Bool :=
  l.tails.any (fun t => pat.isPrefixOf t)

/-- Python `pat in s` substring test. -/
def strContainsSub (s pat : String) : Bool :=
  listContainsSub pat.toList s.toList

/-- Python `s.lower()` (character-wise; the symbols and contexts involved
are ASCII). -/
def pyToLower (s : String) : String :=
  String.mk (s.toList.map Char.toLower)

/-- Python `s.upper()`. -/
def pyToUpper (s : String) : String :=
  String.mk (s.toList.map Char.toUpper)

/-- Python `s.strip()` (whitespace at both ends). -/
def pyStrip (s : String) : String :=
  String.mk
    (((s.toList.dropWhile (·.isWhitespace)).reverse.dropWhile
      (·.isWhitespace)).reverse)

/-- Two-digit zero-padded rendering of a natural number below 100. -/
def pad2 (n : ℕ) : String :=
  if n < 10 then "0" ++ toString n else toString n

/-- Python `f"{x:.2f}"` on an exact decimal value (half-even at 2 places). -/
def formatQ2 (q : ℚ) : String :=
  let n := roundHalfEven (q * 100)
  let m := n.natAbs
  let core := toString (m / 100) ++ "." ++ pad2 (m % 100)
  if n < 0 then "-" ++ core else core

/-- Python negative indexing `l[-i]` (for `i ≥ 1`): `none` models the
`IndexError` raised when the list is too short. -/
def negGet (l : List ℚ) (i : ℕ) : Option ℚ :=
  if 1 ≤ i ∧ i ≤ l.length then l.get? (l.length - i) else none

/-! ## `core/llm_resilience.py`: `CircuitBreaker`

The breaker state is the record of mutable attributes set in `__init__`;
`state` is the Python string `"CLOSED" | "OPEN" | "HALF_OPEN"` exactly as in
the source.  Wall-clock instants (`datetime.now()`) are integer seconds
passed explicitly. -/

namespace LLMResilience

structure CircuitBreaker where
  failureThreshold : ℕ
  recoveryTimeout : ℤ
  successThreshold : ℕ
  failureCount : ℕ
  successCount : ℕ
  lastFailureTime : Option ℤ
  state : String
deriving Repr, DecidableEq

/-- The module-level breaker `llm_circuit_breaker = CircuitBreaker(5, 60, 2)`
in its initial state. -/
def defaultBreaker : CircuitBreaker :=
  ⟨5, 60, 2, 0, 0, none, "CLOSED"⟩

/-- `CircuitBreaker._should_attempt_reset`, with `now` the current time. -/
def shouldAttemptReset (cb : CircuitBreaker) (now : ℤ) : Bool :=
  match cb.lastFailureTime with
  | none => true
  | some t => cb.recoveryTimeout ≤ now - t

/-- `CircuitBreaker._on_success`. -/
def onSuccess (cb : CircuitBreaker) : CircuitBreaker :=
  let cb := { cb with failureCount := 0 }
  if cb.state = "HALF_OPEN" then
    let cb := { cb with successCount := cb.successCount + 1 }
    if cb.successThreshold ≤ cb.successCount then
      { cb with state := "CLOSED", successCount := 0 }
    else cb
  else cb

/-- `CircuitBreaker._on_failure`, with `now` the time recorded as
`last_failure_time`. -/
def onFailure (cb : CircuitBreaker) (now : ℤ) : CircuitBreaker :=
  let cb := { cb with
    failureCount := cb.failureCount + 1
    lastFailureTime := some now
    successCount := 0 }
  if cb.failureThreshold ≤ cb.failureCount then { cb with state := "OPEN" }
  else cb

/-- Outcome of one `CircuitBreaker.call`: whether the wrapped function was
invoked, whether the call returned normally (`ok = false` models a raised
exception), and the breaker afterwards. -/
structure CallResult where
  invoked : Bool
  ok : Bool
  breaker : CircuitBreaker
deriving Repr, DecidableEq

/-- The `try`/`except` body of `CircuitBreaker.call`: invoke the wrapped
function (its outcome is the input `funcSucceeds`), then `_on_success` or
`_on_failure` and re-raise. -/
def attemptCall (cb : CircuitBreaker) (now : ℤ) (funcSucceeds : Bool) :
    CallResult :=
  if funcSucceeds then ⟨true, true, onSuccess cb⟩
  else ⟨true, false, onFailure cb now⟩

/-- `CircuitBreaker.call` (the async variant `call_async` has identical
control flow): in `OPEN`, either move to `HALF_OPEN` and attempt, or reject
with the circuit-open error without invoking the wrapped function. -/
def CircuitBreaker.call (cb : CircuitBreaker) (now : ℤ)
    (funcSucceeds : Bool) : CallResult :=
  if cb.state = "OPEN" then
    if shouldAttemptReset cb now then
      attemptCall { cb with state := "HALF_OPEN" } now funcSucceeds
    else ⟨false, false, cb⟩
  else attemptCall cb now funcSucceeds

/-- Run a sequence of calls, each given as (time, wrapped-call outcome). -/
def runCalls (cb : CircuitBreaker) (events : List (ℤ × Bool)) :
    CircuitBreaker :=
  events.foldl (fun c e => (CircuitBreaker.call c e.1 e.2).breaker) cb

end LLMResilience

/-! ## `core/tier1_math.py`: `Tier1MathEngine`

`Option` models a raised exception (`none` = the Python code would raise,
e.g. an `IndexError` from negative indexing into a too-short list). -/

namespace Tier1Math

structure Candle where
  high : ℚ
  low : ℚ
deriving Repr, DecidableEq

structure MarketData where
  candles : List Candle
  maFast : List ℚ
  maSlow : List ℚ
  maTrend : List ℚ
deriving Repr

structure Tier1Result where
  trendDirection : String
  trendStrength : ℚ
  structureValid : Bool
  vetoReason : Option String
  supportLevels : Option (List ℚ)
  resistanceLevels : Option (List ℚ)
  maAlignment : Option String
deriving Repr, DecidableEq

/-- `Tier1MathEngine._calculate_trend_strength`.  The slow-MA slope is
computed (and can raise) but is unused, exactly as in the source. -/
def calculateTrendStrength (maFast maSlow maTrend : List ℚ)
    (direction : String) : Option ℚ :=
  if maFast = [] ∨ maSlow = [] ∨ maFast.length < 5 then some 0
  else do
    let f1 ← negGet maFast 1
    let f5 ← negGet maFast 5
    let s1 ← negGet maSlow 1
    let s5 ← negGet maSlow 5
    let fastSlope := (f1 - f5) / 5
    let _slowSlope := (s1 - s5) / 5
    let trendAligned : Bool :=
      match negGet maTrend 1 with
      | some t1 =>
          (direction == "bullish" && decide (t1 < f1)) ||
          (direction == "bearish" && decide (f1 < t1))
      | none => false
    let strength := min (|fastSlope| * 10) 1
    let strength := if trendAligned then min (strength * (13/10)) 1 else strength
    pure strength

/-- `Tier1MathEngine._calculate_trend` (the `candles` argument is unused in
the source as well). -/
def calculateTrend (maFast maSlow maTrend : List ℚ)
    (_candles : List Candle) : Option (String × ℚ) :=
  if maFast = [] ∨ maSlow = [] ∨ maFast.length < 2 then some ("neutral", 0)
  else do
    let fastNow ← negGet maFast 1
    let fastPrev ← negGet maFast 2
    let slowNow ← negGet maSlow 1
    let slowPrev ← negGet maSlow 2
    if fastNow > slowNow ∧ fastPrev ≤ slowPrev then
      let s ← calculateTrendStrength maFast maSlow maTrend "bullish"
      pure ("bullish", s)
    else if fastNow < slowNow ∧ fastPrev ≥ slowPrev then
      let s ← calculateTrendStrength maFast maSlow maTrend "bearish"
      pure ("bearish", s)
    else if fastNow > slowNow then
      let s ← calculateTrendStrength maFast maSlow maTrend "bullish"
      pure ("bullish", 1/2 + s * (1/2))
    else if fastNow < slowNow then
      let s ← calculateTrendStrength maFast maSlow maTrend "bearish"
      pure ("bearish", 1/2 + s * (1/2))
    else
      pure ("neutral", 0)

/-- Minimum of a list, as Python `min(lows)` (callers guarantee
non-emptiness; `0` stands for the unreachable empty case). -/
def listMin (l : List ℚ) : ℚ :=
  match l with
  | [] => 0
  | h :: t => t.foldl min h

/-- Maximum of a list, as Python `max(highs)`. -/
def listMax (l : List ℚ) : ℚ :=
  match l with
  | [] => 0
  | h :: t => t.foldl max h

/-- `Tier1MathEngine._analyze_structure`.  All indices touched by the swing
loop are in range by the loop bounds, so `getD` is exact. -/
def analyzeStructure (candles : List Candle) (trendDirection : String) :
    Bool × List ℚ × List ℚ :=
  if candles.length < 10 then (false, [], [])
  else
    let highs := (candles.drop (candles.length - 20)).map (·.high)
    let lows := (candles.drop (candles.length - 20)).map (·.low)
    let idxs := List.range' 2 (highs.length - 4)
    let isSwingHigh : ℕ → Bool := fun i =>
      decide (highs.getD (i-1) 0 < highs.getD i 0) &&
      decide (highs.getD (i-2) 0 < highs.getD i 0) &&
      decide (highs.getD (i+1) 0 < highs.getD i 0) &&
      decide (highs.getD (i+2) 0 < highs.getD i 0)
    let isSwingLow : ℕ → Bool := fun i =>
      decide (lows.getD i 0 < lows.getD (i-1) 0) &&
      decide (lows.getD i 0 < lows.getD (i-2) 0) &&
      decide (lows.getD i 0 < lows.getD (i+1) 0) &&
      decide (lows.getD i 0 < lows.getD (i+2) 0)
    let swingHighs := (idxs.filter isSwingHigh).map (fun i => highs.getD i 0)
    let swingLows := (idxs.filter isSwingLow).map (fun i => lows.getD i 0)
    let structureValid :=
      if trendDirection = "bullish" ∧ 2 ≤ swingHighs.length then
        ¬ (swingHighs.getD (swingHighs.length - 1) 0 <
           swingHighs.getD (swingHighs.length - 2) 0)
      else if trendDirection = "bearish" ∧ 2 ≤ swingLows.length then
        ¬ (swingLows.getD (swingLows.length - 2) 0 <
           swingLows.getD (swingLows.length - 1) 0)
      else True
    let support :=
      if swingLows = [] then [listMin lows]
      else (swingLows.drop (swingLows.length - 3)).insertionSort (· ≤ ·)
    let resistance :=
      if swingHighs = [] then [listMax highs]
      else (swingHighs.drop (swingHighs.length - 3)).insertionSort (· ≥ ·)
    (decide structureValid, support, resistance)

/-- `Tier1MathEngine._check_ma_alignment`. -/
def checkMAAlignment (maFast maSlow maTrend : List ℚ) : Option String :=
  if maFast = [] ∨ maSlow = [] ∨ maFast.length < 2 then some "mixed"
  else do
    let fastNow ← negGet maFast 1
    let fastPrev ← negGet maFast 2
    let slowNow ← negGet maSlow 1
    let slowPrev ← negGet maSlow 2
    if (fastNow > slowNow ∧ fastPrev ≤ slowPrev) ∨
       (fastNow < slowNow ∧ fastPrev ≥ slowPrev) then
      pure "crossing"
    else
      match negGet maTrend 1 with
      | some t1 =>
          if fastNow > slowNow ∧ slowNow > t1 then pure "aligned_bullish"
          else if fastNow < slowNow ∧ slowNow < t1 then pure "aligned_bearish"
          else pure "mixed"
      | none => pure "mixed"

/-- `Tier1MathEngine.analyze` (the engine's thresholds are the constants
set in `__init__`: `veto_threshold = 0.7`). -/
def analyze (md : MarketData) : Option Tier1Result :=
  if md.candles = [] ∨ md.candles.length < 20 then
    some { trendDirection := "neutral", trendStrength := 0,
           structureValid := false, vetoReason := some "Insufficient data",
           supportLevels := none, resistanceLevels := none,
           maAlignment := none }
  else do
    let td ← calculateTrend md.maFast md.maSlow md.maTrend md.candles
    let sv := analyzeStructure md.candles td.1
    let align ← checkMAAlignment md.maFast md.maSlow md.maTrend
    let vetoReason :=
      if td.2 > 7/10 then
        if td.1 = "bearish" then
          some "Strong bearish trend - BUY signals blocked"
        else if td.1 = "bullish" then
          some "Strong bullish trend - SELL signals blocked"
        else none
      else none
    pure { trendDirection := td.1, trendStrength := td.2,
           structureValid := sv.1, vetoReason := vetoReason,
           supportLevels := some sv.2.1, resistanceLevels := some sv.2.2,
           maAlignment := some align }

end Tier1Math

/-! ## `core/agents.py`: structured agents and the `Arbitrator` -/

namespace Agents

inductive SignalAction
  | STRONG_BUY | BUY | HOLD | SELL | STRONG_SELL
deriving Repr, DecidableEq

def SignalAction.value : SignalAction → String
  | .STRONG_BUY => "STRONG_BUY"
  | .BUY => "BUY"
  | .HOLD => "HOLD"
  | .SELL => "SELL"
  | .STRONG_SELL => "STRONG_SELL"

structure Argument where
  claim : String
  evidence : String
  confidence : ℚ
  weight : ℚ
deriving Repr, DecidableEq

structure AgentAnalysis where
  agentName : String
  overallBias : String
  arguments : List Argument
  keyPoints : List String
  riskAssessment : String
  recommendation : SignalAction
  confidenceScore : ℚ
  rawOutput : String
deriving Repr, DecidableEq

/-- The spec's formula for `confidenceScore`: `Σ(confidence·weight)/Σ(weight)`
over the arguments.  Stated from the specification's words, to be compared
with what the agents compute. -/
def weightedMeanSpec (args : List Argument) : ℚ :=
  (args.map (fun a => a.confidence * a.weight)).sum / (args.map (·.weight)).sum

/-- The fields of the market-data dict read by the structured agents, with
the dict-lookup defaults of the source (`get('close', 0)` etc.) already
applied; `rsi` keeps `None` (`market_data.get('rsi')`). -/
structure MarketDict where
  close : ℚ
  openP : ℚ
  spread : ℚ
  rsi : Option ℚ
deriving Repr, DecidableEq

/-- `StructuredProAgent.analyze_structured`.  The prose returned by the
parent's `argue` call is the `rawOutput` input. -/
def proAnalyzeStructured (md : MarketDict) (rawOutput : String) :
    AgentAnalysis :=
  let args1 :=
    if md.close > md.openP then
      [({ claim := "Bullish price action",
          evidence := "Close > Open", confidence := 3/5,
          weight := 3/10 } : Argument)]
    else []
  -- Python `if rsi and 40 <= rsi <= 60`: `None` and `0.0` are falsy.
  let rsiOk : Bool :=
    match md.rsi with
    | none => false
    | some r => decide (r ≠ 0) && decide (40 ≤ r) && decide (r ≤ 60)
  let args := args1 ++
    (if rsiOk then
      [({ claim := "RSI in optimal zone",
          evidence := "RSI - room to move", confidence := 7/10,
          weight := 1/4 } : Argument)]
     else [])
  let avgConf :=
    if args ≠ [] then
      (args.map (fun arg => arg.confidence * arg.weight)).sum /
        (args.map (fun arg => arg.weight)).sum
    else 1/2
  { agentName := "Pro Agent", overallBias := "bullish", arguments := args,
    keyPoints := args.map (·.claim),
    riskAssessment := "Standard risk, use stop loss",
    recommendation := if avgConf > 3/5 then .BUY else .HOLD,
    confidenceScore := avgConf, rawOutput := rawOutput }

/-- `StructuredConAgent.analyze_structured`. -/
def conAnalyzeStructured (md : MarketDict) (tier1Context : String)
    (rawOutput : String) : AgentAnalysis :=
  let args1 :=
    if md.spread > 3 then
      [({ claim := "High spread warning",
          evidence := "Spread pips - entry cost high", confidence := 4/5,
          weight := 7/20 } : Argument)]
    else []
  let args := args1 ++
    (if strContainsSub (pyToLower tier1Context) "resistance" then
      [({ claim := "Near resistance",
          evidence := "Price approaching resistance zone",
          confidence := 7/10, weight := 3/10 } : Argument)]
     else [])
  let avgConf :=
    if args ≠ [] then
      (args.map (fun arg => arg.confidence * arg.weight)).sum /
        (args.map (fun arg => arg.weight)).sum
    else 2/5
  { agentName := "Con Agent", overallBias := "bearish", arguments := args,
    keyPoints := args.map (·.claim),
    riskAssessment := "Potential trap scenario",
    recommendation := if avgConf > 3/5 then .SELL else .HOLD,
    confidenceScore := avgConf, rawOutput := rawOutput }

/-- Python `round(x, 3)` (half-even). -/
def roundHalfEven3 (q : ℚ) : ℚ :=
  (roundHalfEven (q * 1000) : ℚ) / 1000

/-- Result of `Arbitrator.judge_debate`.  The first block of fields mirrors
the returned dict (scores rounded to three places as in the source); the
trailing fields expose the function's locals `debate_score`, `final_score`
and the pre-`.value` action, which the dict only reflects indirectly.
The free-text `reasoning` entry is not modelled. -/
structure DebateVerdict where
  action : String
  confidenceScore : ℚ
  debateWinner : String
  proConfidence : ℚ
  conConfidence : ℚ
  tier1Contribution : ℚ
  tier3Contribution : ℚ
  vetoActive : Bool
  vetoReason : Option String
  debateScore : ℚ
  finalScore : ℚ
  actionEnum : SignalAction
deriving Repr, DecidableEq

/-- `Arbitrator.judge_debate` with the constants of `Arbitrator.__init__`
(`min_confidence_threshold = 0.65`, `tier1_weight = 0.30`,
`tier3_weight = 0.70`). -/
def judgeDebate (pro con : AgentAnalysis) (tier1TrendStrength : ℚ)
    (tier1Veto : Bool) (tier1VetoReason : Option String) : DebateVerdict :=
  let proScore := pro.confidenceScore
  let conScore := con.confidenceScore
  let scoreDiff := proScore - conScore
  let wbd : String × String × ℚ :=
    if scoreDiff > 3/20 then ("PRO", "bullish", proScore)
    else if scoreDiff < -(3/20) then ("CON", "bearish", conScore)
    else ("NEUTRAL", "neutral", (proScore + conScore) / 2)
  let debateWinner := wbd.1
  let debateBias := wbd.2.1
  let debateScore := wbd.2.2
  let fa : ℚ × SignalAction :=
    if tier1Veto then (debateScore * (3/10), .HOLD)
    else
      let fs := tier1TrendStrength * (3/10) + debateScore * (7/10)
      let act : SignalAction :=
        if fs ≥ 13/20 then
          if debateBias = "bullish" then
            (if fs < 4/5 then .BUY else .STRONG_BUY)
          else if debateBias = "bearish" then
            (if fs < 4/5 then .SELL else .STRONG_SELL)
          else .HOLD
        else .HOLD
      (fs, act)
  let finalScore := fa.1
  let action := fa.2
  { action := action.value, confidenceScore := roundHalfEven3 finalScore,
    debateWinner := debateWinner,
    proConfidence := roundHalfEven3 proScore,
    conConfidence := roundHalfEven3 conScore,
    tier1Contribution := roundHalfEven3 (tier1TrendStrength * (3/10)),
    tier3Contribution := roundHalfEven3 (debateScore * (7/10)),
    vetoActive := tier1Veto, vetoReason := tier1VetoReason,
    debateScore := debateScore, finalScore := finalScore,
    actionEnum := action }

end Agents

/-! ## `core/account_manager.py` (sizing-relevant parts) and
`TheJudge._calculate_safe_lot` / `TheJudge._estimate_pip_value` -/

namespace Sizing

/-- The `AccountInfo` fields read by the sizing path. -/
structure AccountInfo where
  minLot : ℚ
  maxLot : ℚ
  lotStep : ℚ
  isMicro : Bool
deriving Repr, DecidableEq

/-- The risk-settings dict entries read by `_calculate_safe_lot`.
`maxLot` is `Option` because the no-account default dict of
`AccountManager.get_risk_settings` has no `max_lot` key (the caller then
falls back to `risk_settings.get('max_lot', 100)`). -/
structure RiskSettings where
  riskPerTrade : ℚ
  maxDailyRisk : ℚ
  minRrr : ℚ
  maxLot : Option ℚ
deriving Repr, DecidableEq

/-- `AccountManager.get_risk_settings`: the mode table, with unknown modes
falling back to `balanced`, and `settings.update` adding the account's
`max_lot` when an account exists. -/
def getRiskSettings (acct : Option AccountInfo) (mode : String) :
    RiskSettings :=
  match acct with
  | none => ⟨1/50, 1/25, 2, none⟩
  | some a =>
      let base : ℚ × ℚ × ℚ :=
        if mode = "safe" then (1/100, 3/100, 5/2)
        else if mode = "balanced" then (1/50, 1/25, 2)
        else if mode = "aggressive" then (3/100, 3/50, 3/2)
        else if mode = "sniper" then (3/200, 3/100, 3)
        else (1/50, 1/25, 2)
      ⟨base.1, base.2.1, base.2.2, some a.maxLot⟩

/-- `TheJudge._estimate_pip_value` (substring lookup on the upper-cased
symbol; empty symbol takes the default branch like any non-matching one). -/
def estimatePipValue (symbol : String) : ℚ :=
  let s := pyToUpper symbol
  if strContainsSub s "JPY" then 1000
  else if strContainsSub s "XAU" || strContainsSub s "GOLD" then 100
  else if strContainsSub s "XAG" || strContainsSub s "SILVER" then 50
  else if strContainsSub s "BTC" then 1
  else 100

/-- `AccountManager.validate_lot_size`. -/
def validateLotSize (lotSize : ℚ) (acct : Option AccountInfo) :
    Bool × ℚ :=
  match acct with
  | none =>
      let adjusted := roundHalfEven2 (max (1/100) (min 100 lotSize))
      (decide (adjusted = lotSize), adjusted)
  | some a =>
      if lotSize < a.minLot then (false, a.minLot)
      else if lotSize > a.maxLot then (false, a.maxLot)
      else
        let rem := pymod lotSize a.lotStep
        if rem > 1/10000 then
          (false, (roundHalfEven (lotSize / a.lotStep) : ℚ) * a.lotStep)
        else (true, lotSize)

/-- `TheJudge.RISK_PERCENT` (the no-account fallback risk per trade). -/
def RISK_PERCENT : ℚ := 1/50

/-- `TheJudge._calculate_safe_lot`.  The account profile and the configured
trading mode are passed explicitly (`get_account_manager().get_account(...)`
and `getattr(self.config, 'trading_mode', 'balanced')` in the source).
Logging statements are no-ops; with them erased no statement of the `try`
body can raise, so the `except` fallback path is unreachable and not
modelled. -/
def calcSafeLot (balance entryPrice slPrice minLot0 stepLot0 : ℚ)
    (symbol : String) (acct : Option AccountInfo) (mode : String) : ℚ :=
  let rs := getRiskSettings acct mode
  let minLot := match acct with | some a => a.minLot | none => minLot0
  let stepLot := match acct with | some a => a.lotStep | none => stepLot0
  let riskPercent :=
    match acct with | some _ => rs.riskPerTrade | none => RISK_PERCENT
  let riskAmount := balance * riskPercent
  let priceDiff := |entryPrice - slPrice|
  if priceDiff = 0 then minLot
  else
    let pipValue := estimatePipValue symbol
    let rawLot := riskAmount / (priceDiff * pipValue)
    let rawLot :=
      match acct with
      | some a =>
          if a.isMicro then (ratTrunc (rawLot / (1/10)) : ℚ) * (1/10)
          else (ratTrunc (rawLot / stepLot) : ℚ) * stepLot
      | none => (ratTrunc (rawLot / stepLot) : ℚ) * stepLot
    let rawLot := (validateLotSize rawLot acct).2
    if rawLot < minLot then
      let potentialRiskVal := minLot * priceDiff * pipValue
      let potentialRiskPct := potentialRiskVal / balance
      let maxRisk := rs.maxDailyRisk
      if potentialRiskPct > maxRisk then 0
      else max minLot (min (rs.maxLot.getD 100) minLot)
    else max minLot (min (rs.maxLot.getD 100) rawLot)

end Sizing

/-! ## `core/judge.py`: `TheJudge.evaluate` and `_arbitrate_agents` -/

namespace Judge

open Sizing

structure TradeSignal where
  action : String
  lotSize : ℚ
  sl : ℚ
  tp : ℚ
  reason : String
  confidenceScore : ℚ
deriving Repr, DecidableEq

/-- `TheJudge._create_signal` (float conversions are exact in the model). -/
def createSignal (action : String) (lot : ℚ) (reason : String)
    (sl tp score : ℚ) : TradeSignal :=
  ⟨action, lot, sl, tp, reason, score⟩

/-- Digit-string value. -/
def digitsVal (l : List Char) : ℕ :=
  l.foldl (fun a c => a * 10 + (c.toNat - 48)) 0

/-- `Decimal(s)` on a finite decimal literal
(`[ws][sign](digits[.digits]|.digits)[(e|E)[sign]digits][ws]`); `none`
models the `InvalidOperation` raised otherwise.  The special literals
(`Infinity`, `NaN`) accepted by Python are outside the model. -/
def pyDecimalParse (s : String) : Option ℚ :=
  let cs := s.toList.dropWhile (·.isWhitespace)
  let cs := (cs.reverse.dropWhile (·.isWhitespace)).reverse
  let sc : ℚ × List Char :=
    match cs with
    | '+' :: t => (1, t)
    | '-' :: t => (-1, t)
    | t => (1, t)
  let sign := sc.1
  let mant := sc.2.takeWhile (fun c => c ≠ 'e' ∧ c ≠ 'E')
  let expPart := sc.2.dropWhile (fun c => c ≠ 'e' ∧ c ≠ 'E')
  let expVal : Option ℤ :=
    match expPart with
    | [] => some 0
    | _ :: rest =>
        let es : ℤ × List Char :=
          match rest with
          | '+' :: t => (1, t)
          | '-' :: t => (-1, t)
          | t => (1, t)
        if es.2 ≠ [] ∧ es.2.all (·.isDigit) then
          some (es.1 * (digitsVal es.2 : ℤ))
        else none
  let intPart := mant.takeWhile (· ≠ '.')
  let rest := mant.dropWhile (· ≠ '.')
  let fracPart : Option (List Char) :=
    match rest with
    | [] => some []
    | _ :: f => if f.all (· ≠ '.') then some f else none
  match expVal, fracPart with
  | some e, some f =>
      if intPart.all (·.isDigit) ∧ f.all (·.isDigit) ∧
         (intPart ≠ [] ∨ f ≠ []) then
        some (sign * ((digitsVal intPart : ℚ) +
          (digitsVal f : ℚ) / 10 ^ f.length) * (10 : ℚ) ^ e)
      else none
  | _, _ => none

/-- The collaborator-visible environment of one `TheJudge.evaluate` call.
Each external interaction is given by its observable outcome; an `.error`
value is an exception raised by that collaborator. -/
structure EvalEnv where
  /-- `config['trading']['cooldown_minutes']` (default 15). -/
  cooldownMinutes : ℚ
  /-- Minutes since `db.get_last_trade_time(symbol)`; `none` when there is
  no recorded trade. -/
  lastTradeElapsedMinutes : Option ℚ
  /-- Result of `_evaluate_tier_1` (a score/reason pair; that method reads
  the external chart-manager state and has its own catch-all fallback, so
  it is an environment input here). -/
  tier1Score : ℚ
  tier1Reason : String
  /-- `rag.query_similar_history` outcome. -/
  ragHistory : Except String Unit
  /-- `rag.query_concepts` outcome. -/
  ragConcepts : Except String Unit
  /-- `get_market_narrative` outcome. -/
  narrative : Except String Unit
  /-- `pro_agent.argue` outcome. -/
  proArg : Except String Unit
  /-- `con_agent.argue` outcome. -/
  conArg : Except String Unit
  /-- Outcome of the arbitration `call_llm_with_retry(...)` call:
  the response content, or the raised exception's message. -/
  llmResponse : Except String String
  price : ℚ
  low : ℚ
  balance : ℚ
  minLot : ℚ
  stepLot : ℚ
  symbol : String
  account : Option AccountInfo
deriving Repr

def WEIGHT_TIER_1 : ℚ := 3/10
def WEIGHT_TIER_3 : ℚ := 7/10
def EXECUTION_THRESHOLD : ℚ := 13/20

/-- `TheJudge._arbitrate_agents`: the chart-context block is wrapped in its
own `try`/`except` and only shapes prompt text, so it cannot affect the
result; the LLM call outcome is `env.llmResponse`; the `score|reason`
parsing and every failure path is modelled ("Judge Error: ..." stands in
for the `InvalidOperation` text on a malformed score). -/
def arbitrateAgents (env : EvalEnv) : ℚ × String :=
  match env.llmResponse with
  | .error e => (1/2, "Judge Error: " ++ e)
  | .ok response =>
      let content := pyStrip response
      let l := content.toList
      if l.contains '|' then
        let scoreStr := String.mk (l.takeWhile (· ≠ '|'))
        let reason := String.mk ((l.dropWhile (· ≠ '|')).tail)
        match pyDecimalParse scoreStr with
        | some q => (q, pyStrip reason)
        | none => (1/2, "Judge Error: InvalidOperation")
      else (1/2, String.mk (l.take 50))

/-- Stages 1–4 of `TheJudge.evaluate` (everything after the cooldown gate).
Audit logging, the GUI monitor and the Telegram task are fire-and-forget
side effects outside the returned value and are not modelled.  The sizing
call passes mode `"balanced"`: `load_config` returns a plain dict, so
`getattr(self.config, 'trading_mode', 'balanced')` always yields the
default.  The redundant `Decimal(str(tier_3_score))` round-trip is the
identity on the model's exact scores. -/
def evaluatePostCooldown (env : EvalEnv) : Except String TradeSignal :=
  -- 1. Tier 1 structure check
  if env.tier1Score = -1 then
    .ok (createSignal "HOLD" 0 ("Tier 1 Veto: " ++ env.tier1Reason) 0 0 0)
  else
    -- 2. RAG context retrieval (results only feed the debate prompts)
    env.ragHistory.bind fun _ =>
    env.ragConcepts.bind fun _ =>
    -- 3. agent debate
    env.narrative.bind fun _ =>
    env.proArg.bind fun _ =>
    env.conArg.bind fun _ =>
    let t3 := arbitrateAgents env
    let finalScore := env.tier1Score * WEIGHT_TIER_1 + t3.1 * WEIGHT_TIER_3
    if finalScore ≥ EXECUTION_THRESHOLD then
      let sl := env.low * (99/100)
      let tp := env.price * (51/50)
      let lot := calcSafeLot env.balance env.price sl env.minLot env.stepLot
        env.symbol env.account "balanced"
      .ok (createSignal "BUY" lot
        ("Score: " ++ formatQ2 finalScore ++ " | Judge: " ++ t3.2)
        sl tp finalScore)
    else
      .ok (createSignal "HOLD" 0
        ("Score " ++ formatQ2 finalScore ++ " < 0.65 | Judge: " ++ t3.2)
        0 0 finalScore)

/-- `TheJudge.evaluate`: the cooldown gate, then the staged pipeline. -/
def evaluate (env : EvalEnv) : Except String TradeSignal :=
  match env.lastTradeElapsedMinutes with
  | some elapsed =>
      if elapsed < env.cooldownMinutes then
        .ok (createSignal "HOLD" 0
          ("COOLDOWN ACTIVE: " ++
            toString (ratTrunc (env.cooldownMinutes - elapsed)) ++
            "m remaining") 0 0 0)
      else evaluatePostCooldown env
  | none => evaluatePostCooldown env

end Judge

/-! ## Spec-side definitions (stated from the specification's words, for
comparison with the source model) -/

namespace SpecSide

open Agents

/-- §4.3 margin rule: `scoreDiff > 0.15 ⇒ debateScore = proConfidence`;
`scoreDiff < −0.15 ⇒ conConfidence`; otherwise the mean. -/
def debateScoreSpec (p c : ℚ) : ℚ :=
  if p - c > 3/20 then p
  else if p - c < -(3/20) then c
  else (p + c) / 2

/-- §4.3 winner bias under the margin rule. -/
def debateBiasSpec (p c : ℚ) : String :=
  if p - c > 3/20 then "bullish"
  else if p - c < -(3/20) then "bearish"
  else "neutral"

/-- §4.3 non-veto combination: `tier1Strength·0.30 + debateScore·0.70`. -/
def finalScoreSpec (t1 ds : ℚ) : ℚ :=
  t1 * (3/10) + ds * (7/10)

/-- §4.3 action selection: at or above the execution threshold 0.65,
bullish bias gives Buy (StrongBuy from 0.8), bearish gives Sell
(StrongSell from 0.8), neutral gives Hold; below threshold always Hold. -/
def actionSpec (bias : String) (fs : ℚ) : SignalAction :=
  if fs ≥ 13/20 then
    if bias = "bullish" then (if fs ≥ 4/5 then .STRONG_BUY else .BUY)
    else if bias = "bearish" then (if fs ≥ 4/5 then .STRONG_SELL else .SELL)
    else .HOLD
  else .HOLD

end SpecSide

/-! ## Theorems -/

open LLMResilience Tier1Math Agents Sizing Judge

/-- C9: for every market-data input with fewer than 20 candles (including
none), `Tier1MathEngine.analyze` does not raise and returns exactly
direction `neutral`, strength `0.0`, `structure_valid = False`, with the
explicit insufficient-data reason string. -/
theorem tier1_insufficient_data (md : MarketData)
    (h : md.candles.length < 20) :
    Tier1Math.analyze md =
      some ⟨"neutral", 0, false, some "Insufficient data",
        none, none, none⟩ := by
  unfold Tier1Math.analyze
  rw [if_pos (Or.inr h)]

/-- Witness for `tier1_insufficient_data` at the empty snapshot. -/
theorem tier1_insufficient_data_witness :
    Tier1Math.analyze ⟨[], [], [], []⟩ =
      some ⟨"neutral", 0, false, some "Insufficient data",
        none, none, none⟩ :=
  tier1_insufficient_data ⟨[], [], [], []⟩ (by decide)

/-- C6: starting from `CLOSED` with zero failures, after exactly
`failure_threshold = 5` consecutive failed calls the breaker is `OPEN`,
and an immediately subsequent call (less than `recovery_timeout = 60`
seconds after the last failure) is rejected with the circuit-open error
without the wrapped function being invoked, leaving the breaker
unchanged. -/
theorem breaker_opens_after_threshold_and_rejects
    (t1 t2 t3 t4 t5 t6 : ℤ) (b : Bool) (h : t6 - t5 < 60) :
    (runCalls defaultBreaker
        [(t1, false), (t2, false), (t3, false), (t4, false),
         (t5, false)]).state = "OPEN" ∧
    (runCalls defaultBreaker
        [(t1, false), (t2, false), (t3, false), (t4, false),
         (t5, false)]).failureCount = 5 ∧
    ((runCalls defaultBreaker
        [(t1, false), (t2, false), (t3, false), (t4, false),
         (t5, false)]).call t6 b).invoked = false ∧
    ((runCalls defaultBreaker
        [(t1, false), (t2, false), (t3, false), (t4, false),
         (t5, false)]).call t6 b).ok = false ∧
    ((runCalls defaultBreaker
        [(t1, false), (t2, false), (t3, false), (t4, false),
         (t5, false)]).call t6 b).breaker =
      runCalls defaultBreaker
        [(t1, false), (t2, false), (t3, false), (t4, false),
         (t5, false)] := by
  have hcb : runCalls defaultBreaker
      [(t1, false), (t2, false), (t3, false), (t4, false), (t5, false)] =
      ⟨5, 60, 2, 5, 0, some t5, "OPEN"⟩ := rfl
  have hreset : shouldAttemptReset ⟨5, 60, 2, 5, 0, some t5, "OPEN"⟩ t6
      = false := by
    simp only [shouldAttemptReset, decide_eq_false_iff_not]
    omega
  have hcall : CircuitBreaker.call ⟨5, 60, 2, 5, 0, some t5, "OPEN"⟩ t6 b =
      ⟨false, false, ⟨5, 60, 2, 5, 0, some t5, "OPEN"⟩⟩ := by
    simp [CircuitBreaker.call, hreset]
  rw [hcb]
  exact ⟨rfl, rfl, by rw [hcall], by rw [hcall], by rw [hcall]⟩

/-- Witness for `breaker_opens_after_threshold_and_rejects` at concrete
times 0,…,0,1. -/
theorem breaker_opens_after_threshold_and_rejects_witness :
    ((runCalls defaultBreaker
        [((0 : ℤ), false), (0, false), (0, false), (0, false),
         (0, false)]).call 1 true).invoked = false :=
  (breaker_opens_after_threshold_and_rejects 0 0 0 0 0 1 true
    (by decide)).2.2.1

/-- C5 counterexample: five failures open the breaker; after the recovery
timeout a half-open call succeeds (resetting `failure_count` to 0); the
NEXT call in `HALF_OPEN` fails, yet the breaker stays in `HALF_OPEN`
(because `_on_failure` only re-opens when `failure_count` reaches the
threshold again) — the claim says this failure must put it in `OPEN`. -/
theorem claim_C5_counterexample :
    (runCalls defaultBreaker
        [((0 : ℤ), false), (1, false), (2, false), (3, false), (4, false),
         (100, true)]).state = "HALF_OPEN" ∧
    ((runCalls defaultBreaker
        [((0 : ℤ), false), (1, false), (2, false), (3, false), (4, false),
         (100, true)]).call 101 false).breaker.state = "HALF_OPEN" ∧
    ((runCalls defaultBreaker
        [((0 : ℤ), false), (1, false), (2, false), (3, false), (4, false),
         (100, true)]).call 101 false).breaker.state ≠ "OPEN" ∧
    ((runCalls defaultBreaker
        [((0 : ℤ), false), (1, false), (2, false), (3, false), (4, false),
         (100, true)]).call 101 false).breaker.successCount = 0 := by
  decide

/-- C5 amended: a failed call executed in `HALF_OPEN` always resets
`success_count` to 0, but moves the breaker to `OPEN` only when the
incremented `failure_count` reaches `failure_threshold`; otherwise the
breaker stays in `HALF_OPEN` (in particular after a success in `HALF_OPEN`
reset `failure_count` to 0). -/
theorem halfopen_failure_resets_success_only
    (cb : CircuitBreaker) (now : ℤ) (h : cb.state = "HALF_OPEN") :
    ((cb.call now false).breaker.successCount = 0) ∧
    (cb.call now false).invoked = true ∧
    (cb.call now false).breaker.state =
      (if cb.failureThreshold ≤ cb.failureCount + 1 then "OPEN"
       else "HALF_OPEN") := by
  have hne : ¬ cb.state = "OPEN" := by rw [h]; decide
  simp only [CircuitBreaker.call, if_neg hne, attemptCall,
    Bool.false_eq_true, if_false, onFailure]
  split_ifs with hth <;> simp_all

/-- Witness for `halfopen_failure_resets_success_only`: a half-open breaker
with one prior success (so `failure_count = 0`) stays half-open on
failure. -/
theorem halfopen_failure_resets_success_only_witness :
    (((⟨5, 60, 2, 0, 1, some 4, "HALF_OPEN"⟩ : CircuitBreaker).call 10
        false).breaker.successCount = 0) ∧
    ((⟨5, 60, 2, 0, 1, some 4, "HALF_OPEN"⟩ : CircuitBreaker).call 10
        false).breaker.state =
      (if (5 : ℕ) ≤ 0 + 1 then "OPEN" else "HALF_OPEN") :=
  ⟨(halfopen_failure_resets_success_only
      ⟨5, 60, 2, 0, 1, some 4, "HALF_OPEN"⟩ 10 rfl).1,
   (halfopen_failure_resets_success_only
      ⟨5, 60, 2, 0, 1, some 4, "HALF_OPEN"⟩ 10 rfl).2.2⟩

/-- C7 counterexample: the structured Con agent with no applicable
arguments (spread ≤ 3, no "resistance" in the tier-1 context) returns
`confidence_score = 0.4`, not the claimed neutral `0.5`. -/
theorem claim_C7_counterexample :
    (conAnalyzeStructured ⟨0, 0, 0, none⟩ "tier1 context" "raw").arguments
      = [] ∧
    (conAnalyzeStructured ⟨0, 0, 0, none⟩ "tier1 context"
      "raw").confidenceScore = 2/5 ∧
    ((2 : ℚ)/5 ≠ 1/2) := by
  have hr : strContainsSub (pyToLower "tier1 context") "resistance" = false :=
    by decide
  refine ⟨?_, ?_, by norm_num⟩ <;> norm_num [conAnalyzeStructured, hr]

/-- C7 amended: for both structured agents the `confidence_score` equals
`Σ(confidence·weight)/Σ(weight)` over the arguments when they are
non-empty; with an empty argument list the Pro agent defaults to exactly
0.5 but the Con agent to exactly 0.4. -/
theorem agent_confidence_weighted_mean (md : MarketDict) (ctx raw : String) :
    ((proAnalyzeStructured md raw).arguments ≠ [] →
      (proAnalyzeStructured md raw).confidenceScore =
        weightedMeanSpec (proAnalyzeStructured md raw).arguments) ∧
    ((proAnalyzeStructured md raw).arguments = [] →
      (proAnalyzeStructured md raw).confidenceScore = 1/2) ∧
    ((conAnalyzeStructured md ctx raw).arguments ≠ [] →
      (conAnalyzeStructured md ctx raw).confidenceScore =
        weightedMeanSpec (conAnalyzeStructured md ctx raw).arguments) ∧
    ((conAnalyzeStructured md ctx raw).arguments = [] →
      (conAnalyzeStructured md ctx raw).confidenceScore = 2/5) := by
  refine ⟨fun h => ?_, fun h => ?_, fun h => ?_, fun h => ?_⟩ <;>
    simp only [proAnalyzeStructured, conAnalyzeStructured,
      weightedMeanSpec] at h ⊢
  · rw [if_pos h]
  · rw [if_neg (fun hn => hn h)]
  · rw [if_pos h]
  · rw [if_neg (fun hn => hn h)]

/-- Witness for `agent_confidence_weighted_mean`: a Pro analysis with one
argument and an empty Con analysis. -/
theorem agent_confidence_weighted_mean_witness :
    ((proAnalyzeStructured ⟨1, 0, 0, none⟩ "r").confidenceScore =
      weightedMeanSpec (proAnalyzeStructured ⟨1, 0, 0, none⟩
        "r").arguments) ∧
    ((conAnalyzeStructured ⟨0, 0, 0, none⟩ "t" "r").confidenceScore
      = 2/5) :=
  ⟨(agent_confidence_weighted_mean ⟨1, 0, 0, none⟩ "t" "r").1
      (by norm_num [proAnalyzeStructured]),
   (agent_confidence_weighted_mean ⟨0, 0, 0, none⟩ "t" "r").2.2.2
      (by norm_num [conAnalyzeStructured, show strContainsSub (pyToLower "t") "resistance" = false from by decide])⟩

/-- C8: for every pair of Pro/Con analyses and non-vetoed Tier-1 strength,
`Arbitrator.judge_debate` computes the debate score by the 0.15-margin
rule, the final score as `tier1·0.30 + debate·0.70`, and the action by the
0.65/0.8 thresholds with the debate bias; and on the concrete scenario
Pro = 0.80, Con = 0.55, Tier-1 = 0.60 it yields debate score 0.80, final
score 0.74 and action BUY. -/
theorem arbitrator_scoring_and_actions (pro con : AgentAnalysis) (t1 : ℚ) :
    ((judgeDebate pro con t1 false none).debateScore =
      SpecSide.debateScoreSpec pro.confidenceScore con.confidenceScore) ∧
    ((judgeDebate pro con t1 false none).finalScore =
      SpecSide.finalScoreSpec t1
        (judgeDebate pro con t1 false none).debateScore) ∧
    ((judgeDebate pro con t1 false none).actionEnum =
      SpecSide.actionSpec
        (SpecSide.debateBiasSpec pro.confidenceScore con.confidenceScore)
        (judgeDebate pro con t1 false none).finalScore) ∧
    ((judgeDebate pro con t1 false none).action =
      (judgeDebate pro con t1 false none).actionEnum.value) ∧
    ((judgeDebate ⟨"", "", [], [], "", .HOLD, 4/5, ""⟩
        ⟨"", "", [], [], "", .HOLD, 11/20, ""⟩ (3/5) false
        none).debateScore = 4/5 ∧
     (judgeDebate ⟨"", "", [], [], "", .HOLD, 4/5, ""⟩
        ⟨"", "", [], [], "", .HOLD, 11/20, ""⟩ (3/5) false
        none).finalScore = 37/50 ∧
     (judgeDebate ⟨"", "", [], [], "", .HOLD, 4/5, ""⟩
        ⟨"", "", [], [], "", .HOLD, 11/20, ""⟩ (3/5) false
        none).actionEnum = .BUY ∧
     (judgeDebate ⟨"", "", [], [], "", .HOLD, 4/5, ""⟩
        ⟨"", "", [], [], "", .HOLD, 11/20, ""⟩ (3/5) false
        none).action = "BUY") := by
  refine ⟨?_, ?_, ?_, ?_, by norm_num [judgeDebate, SignalAction.value]⟩ <;>
    simp only [judgeDebate, SpecSide.debateScoreSpec,
      SpecSide.debateBiasSpec, SpecSide.finalScoreSpec, SpecSide.actionSpec,
      Bool.false_eq_true, if_false] <;>
    split_ifs <;>
    first
      | rfl
      | (exfalso; linarith)

/-- Helper: truncation toward zero of an integer-valued rational. -/
theorem ratTrunc_intCast (n : ℤ) : ratTrunc (n : ℚ) = n := by
  unfold ratTrunc
  split_ifs with h
  · simp
  · rw [← Int.cast_neg, Int.floor_intCast]; ring

/-- C3 counterexample: on balance 10000, mode safe, entry 1.1000, stop
1.0950, symbol EURUSD and a standard account (min 0.01 / step 0.01 /
max 100), `_calculate_safe_lot` returns 100.0 — not the claimed 0.20. -/
theorem claim_C3_counterexample :
    calcSafeLot 10000 (11/10) (219/200) (1/100) (1/100) "EURUSD"
      (some ⟨1/100, 100, 1/100, false⟩) "safe" = 100 ∧
    ((100 : ℚ) ≠ 1/5) := by
  have hpip : estimatePipValue "EURUSD" = 100 := rfl
  have habs : |(1:ℚ) / 200| = 1/200 := abs_of_pos (by norm_num)
  have ht : ratTrunc (20000 : ℚ) = 20000 := by
    rw [show ((20000 : ℚ)) = ((20000 : ℤ) : ℚ) by norm_num]
    exact ratTrunc_intCast 20000
  refine ⟨?_, by norm_num⟩
  simp only [calcSafeLot, getRiskSettings, hpip, validateLotSize,
    RISK_PERCENT]
  norm_num [ht, habs]

/-- C3 amended: on that input the risk amount is $100 as claimed, but the
raw lot `riskAmount / (priceDiff × pipValue)` is 200 (the spec's own
formula `100/(0.0050×100)` evaluates to 200, not 0.2), and after step
rounding and validation the returned lot is the max-lot clamp 100.0. -/
theorem scenario_A_actual_values :
    ((10000 : ℚ) * (getRiskSettings (some ⟨1/100, 100, 1/100, false⟩)
        "safe").riskPerTrade) = 100 ∧
    ((100 : ℚ) / (|(11:ℚ)/10 - 219/200| * estimatePipValue "EURUSD"))
      = 200 ∧
    calcSafeLot 10000 (11/10) (219/200) (1/100) (1/100) "EURUSD"
      (some ⟨1/100, 100, 1/100, false⟩) "safe" = 100 := by
  have hpip : estimatePipValue "EURUSD" = 100 := rfl
  have habs2 : |(11:ℚ)/10 - 219/200| = 1/200 := by
    rw [show (11:ℚ)/10 - 219/200 = 1/200 by norm_num]
    exact abs_of_pos (by norm_num)
  have habs : |(1:ℚ) / 200| = 1/200 := abs_of_pos (by norm_num)
  have ht : ratTrunc (20000 : ℚ) = 20000 := by
    rw [show ((20000 : ℚ)) = ((20000 : ℤ) : ℚ) by norm_num]
    exact ratTrunc_intCast 20000
  refine ⟨by norm_num [getRiskSettings], by norm_num [habs2, habs, hpip],
    ?_⟩
  simp only [calcSafeLot, getRiskSettings, hpip, validateLotSize,
    RISK_PERCENT]
  norm_num [ht, habs]

/-- C4: at balance 1000, mode safe (max daily risk 3%), entry 2, stop 1,
account min lot 1 (step 1, max 100), the step-rounded lot (0) falls below
the minimum lot and the risk implied by trading the minimum lot is
`1·1·100/1000 = 10% > 3%`; the claim (and the in-code "ABORT" branch)
require a return of 0, but `validate_lot_size` bumps the lot to the
minimum BEFORE that check, so the function returns the minimum lot 1. -/
theorem minlot_abort_bypassed :
    (getRiskSettings (some ⟨1, 100, 1, false⟩) "safe").maxDailyRisk
      = 3/100 ∧
    ((1 : ℚ) * |(2:ℚ) - 1| * estimatePipValue "EURUSD") / 1000 > 3/100 ∧
    calcSafeLot 1000 2 1 (1/100) (1/100) "EURUSD"
      (some ⟨1, 100, 1, false⟩) "safe" = 1 := by
  have hpip : estimatePipValue "EURUSD" = 100 := rfl
  have habs : |(2:ℚ) - 1| = 1 := by
    rw [show (2:ℚ) - 1 = 1 by norm_num]
    exact abs_one
  have ht : ratTrunc ((1:ℚ)/10) = 0 := by
    unfold ratTrunc
    rw [if_pos (by norm_num : (0:ℚ) ≤ 1/10)]
    exact Int.floor_eq_zero_iff.mpr ⟨by norm_num, by norm_num⟩
  refine ⟨by norm_num [getRiskSettings], by norm_num [habs, hpip], ?_⟩
  simp only [calcSafeLot, getRiskSettings, hpip, validateLotSize,
    RISK_PERCENT]
  norm_num [ht]

/-- Helper: every signal produced by the post-cooldown pipeline has action
`"BUY"` or `"HOLD"`. -/
theorem postCooldown_action (env : EvalEnv) (s : TradeSignal)
    (h : evaluatePostCooldown env = .ok s) :
    s.action = "BUY" ∨ s.action = "HOLD" := by
  unfold evaluatePostCooldown at h
  split at h
  · cases h; exact Or.inr rfl
  · rcases hr1 : env.ragHistory with m1 | u1 <;> rw [hr1] at h
    · simp [Except.bind] at h
    rcases hr2 : env.ragConcepts with m2 | u2 <;> rw [hr2] at h
    · simp [Except.bind] at h
    rcases hr3 : env.narrative with m3 | u3 <;> rw [hr3] at h
    · simp [Except.bind] at h
    rcases hr4 : env.proArg with m4 | u4 <;> rw [hr4] at h
    · simp [Except.bind] at h
    rcases hr5 : env.conArg with m5 | u5 <;> rw [hr5] at h
    · simp [Except.bind] at h
    simp only [Except.bind] at h
    split at h
    · cases h; exact Or.inl rfl
    · cases h; exact Or.inr rfl

/-- C10: whenever `evaluate` returns a signal (rather than propagating an
exception), that signal's action is `"BUY"` or `"HOLD"`: the orchestrator
never emits `"SELL"`, `"STRONG_SELL"` or `"STRONG_BUY"`, although the
signal-action domain and the `Arbitrator` include them. -/
theorem evaluate_action_buy_or_hold (env : EvalEnv) (s : TradeSignal)
    (h : evaluate env = .ok s) :
    s.action = "BUY" ∨ s.action = "HOLD" := by
  unfold evaluate at h
  split at h
  · split at h
    · cases h; exact Or.inr rfl
    · exact postCooldown_action env s h
  · exact postCooldown_action env s h

/-- Witness for `evaluate_action_buy_or_hold` at a vetoed evaluation. -/
theorem evaluate_action_buy_or_hold_witness :
    (createSignal "HOLD" 0 ("Tier 1 Veto: " ++ "x") 0 0 0).action = "BUY" ∨
    (createSignal "HOLD" 0 ("Tier 1 Veto: " ++ "x") 0 0 0).action =
      "HOLD" :=
  evaluate_action_buy_or_hold
    ⟨15, none, -1, "x", .ok (), .ok (), .ok (), .ok (), .ok (),
      .ok "0.9|great", 2, 1, 10000, 1, 1, "EURUSD", none⟩
    (createSignal "HOLD" 0 ("Tier 1 Veto: " ++ "x") 0 0 0) rfl

/-- C1 counterexample: on a Tier-1 hard veto, `evaluate` returns
immediately a Hold with confidence 0 and the veto reason — the debate
stage is not run (the Pro agent here would raise `"boom"`, yet the result
is still `.ok`), and the returned score 0 differs from the claimed
`debateScore × 0.3 = 0.9 × 0.3 = 0.27`. -/
theorem claim_C1_counterexample :
    evaluate ⟨15, none, -1, "Strong Bearish Veto: test", .ok (), .ok (),
        .ok (), .error "boom", .ok (), .ok "0.9|great", 2, 1, 10000, 1, 1,
        "EURUSD", none⟩ =
      .ok (createSignal "HOLD" 0
        ("Tier 1 Veto: " ++ "Strong Bearish Veto: test") 0 0 0) ∧
    ((9 : ℚ)/10 * (3/10) ≠
      (createSignal "HOLD" 0
        ("Tier 1 Veto: " ++ "Strong Bearish Veto: test") 0 0 0
        ).confidenceScore) :=
  ⟨rfl, by norm_num [createSignal]⟩

/-- C1 amended: when `_evaluate_tier_1` signals a hard veto (score −1) and
no cooldown is active, `evaluate` returns immediately a Hold signal with
lot 0, confidence 0 and reason `"Tier 1 Veto: <reason>"`, skipping
retrieval and debate (the result holds for every environment, whatever the
debate collaborators would do); the 0.3-multiplier forced-Hold rule exists
only in `Arbitrator.judge_debate`, which `evaluate` does not invoke. -/
theorem tier1_veto_short_circuits (env : EvalEnv)
    (hcd : env.lastTradeElapsedMinutes = none)
    (hv : env.tier1Score = -1) :
    evaluate env =
      .ok (createSignal "HOLD" 0 ("Tier 1 Veto: " ++ env.tier1Reason)
        0 0 0) ∧
    (∀ pro con : AgentAnalysis, ∀ t1 : ℚ, ∀ r : Option String,
      (judgeDebate pro con t1 true r).finalScore =
        (judgeDebate pro con t1 true r).debateScore * (3/10) ∧
      (judgeDebate pro con t1 true r).actionEnum = .HOLD ∧
      (judgeDebate pro con t1 true r).action = "HOLD") := by
  constructor
  · unfold evaluate
    rw [hcd]
    unfold evaluatePostCooldown
    rw [if_pos hv]
  · intro pro con t1 r
    refine ⟨?_, ?_, ?_⟩ <;> simp [judgeDebate, SignalAction.value]

/-- Witness for `tier1_veto_short_circuits`. -/
theorem tier1_veto_short_circuits_witness :
    evaluate ⟨15, none, -1, "x", .ok (), .ok (), .ok (), .ok (), .ok (),
        .ok "0.9|great", 2, 1, 10000, 1, 1, "EURUSD", none⟩ =
      .ok (createSignal "HOLD" 0 ("Tier 1 Veto: " ++ "x") 0 0 0) :=
  (tier1_veto_short_circuits _ rfl rfl).1

/-- C2 counterexample: an exception raised by the context-retrieval stage
(`rag.query_similar_history`) propagates out of `evaluate` instead of
being converted into a Hold signal. -/
theorem claim_C2_counterexample :
    evaluate ⟨15, none, 0, "t1", .error "rag boom", .ok (), .ok (), .ok (),
        .ok (), .ok "0.9|great", 2, 1, 10000, 1, 1, "EURUSD", none⟩ =
      .error "rag boom" := rfl

/-- C2 amended: only the arbitration LLM call is guarded — its exception
becomes tier-3 score 0.5 with a reason embedding `"Judge Error: <msg>"`,
and `evaluate` then returns a signal normally (possibly even a BUY when
the Tier-1 score is high enough, e.g. tier-1 = 1 gives final score 0.65);
exceptions raised during context retrieval (or debate) propagate to the
caller. -/
theorem arbitration_guarded_but_stages_propagate (env : EvalEnv)
    (m : String) (hcd : env.lastTradeElapsedMinutes = none)
    (hv : ¬ env.tier1Score = -1) (h1 : env.ragHistory = .ok ())
    (h2 : env.ragConcepts = .ok ()) (h3 : env.narrative = .ok ())
    (h4 : env.proArg = .ok ()) (h5 : env.conArg = .ok ())
    (hllm : env.llmResponse = .error m) :
    (∃ s : TradeSignal, ∃ p : String, evaluate env = .ok s ∧
        s.reason = p ++ ("Judge Error: " ++ m) ∧
        s.confidenceScore =
          env.tier1Score * WEIGHT_TIER_1 + (1/2) * WEIGHT_TIER_3) ∧
    (∀ env2 : EvalEnv, ∀ m2 : String,
        env2.lastTradeElapsedMinutes = none → ¬ env2.tier1Score = -1 →
        env2.ragHistory = .error m2 → evaluate env2 = .error m2) ∧
    (∃ s : TradeSignal, ∃ p : String,
        evaluate ⟨15, none, 1, "t1", .ok (), .ok (), .ok (), .ok (),
          .ok (), .error "llm down", 2, 1, 10000, 1, 1, "EURUSD", none⟩ =
          .ok s ∧
        s.action = "BUY" ∧
        s.reason = p ++ ("Judge Error: " ++ "llm down")) := by
  refine ⟨?_, ?_, ?_⟩
  · unfold evaluate
    rw [hcd]
    unfold evaluatePostCooldown
    rw [if_neg hv, h1, h2, h3, h4, h5]
    simp only [Except.bind]
    unfold arbitrateAgents
    rw [hllm]
    split_ifs with hge
    · exact ⟨_, "Score: " ++ formatQ2 _ ++ " | Judge: ", rfl, rfl, rfl⟩
    · exact ⟨_, "Score " ++ formatQ2 _ ++ " < 0.65 | Judge: ",
        rfl, rfl, rfl⟩
  · intro env2 m2 hcd2 hv2 hrag
    unfold evaluate
    rw [hcd2]
    unfold evaluatePostCooldown
    rw [if_neg hv2, hrag]
    rfl
  · unfold evaluate evaluatePostCooldown arbitrateAgents
    norm_num [WEIGHT_TIER_1, WEIGHT_TIER_3, EXECUTION_THRESHOLD,
      Except.bind]
    exact ⟨rfl, "Score: " ++ formatQ2 (13/20) ++ " | Judge: ", rfl⟩

/-- Witness for `arbitration_guarded_but_stages_propagate`. -/
theorem arbitration_guarded_but_stages_propagate_witness :
    ∃ s : TradeSignal, ∃ p : String,
      evaluate ⟨15, none, 0, "t1", .ok (), .ok (), .ok (), .ok (), .ok (),
        .error "boom", 2, 1, 10000, 1, 1, "EURUSD", none⟩ = .ok s ∧
      s.reason = p ++ ("Judge Error: " ++ "boom") ∧
      s.confidenceScore =
        (0 : ℚ) * WEIGHT_TIER_1 + (1/2) * WEIGHT_TIER_3 :=
  (arbitration_guarded_but_stages_propagate _ "boom" rfl (by norm_num) rfl
    rfl rfl rfl rfl rfl).1
